import Mathlib

/-!
Verification of the ARM virtual GIC distributor (`xen/arch/arm/vgic.c`).

This file gives a shallow embedding of the virtual distributor: the register
rank store, the MMIO dispatch for the trapped distributor frame, the
injection engine (`vgic_vcpu_inject_irq`), the enable/disable transitions and
the SGI dispatcher (`vgic_to_sgi`), together with theorems about the claims
on this code.

Modelling conventions:
* Machine integers (`uint32_t`, `register_t` on arm32) are `Nat`; bit
  operations use `&&&`, `|||`, `^^^`, shifts, with 32-bit complement done by
  `not32` below.  Register values written by the guest are 32-bit by type in
  the C source; theorems hold for arbitrary `Nat` inputs because every store
  masks exactly where the C expression does.
* The four `GIC_IRQ_GUEST_*` status bits of a `pending_irq` are modelled as
  four named `Bool` fields.
* Spinlocks are modelled away: every handler runs atomically, as the source's
  lock discipline guarantees for the state read/written under a given lock.
* Calls into the physical-interface collaborator (`gic_raise_guest_irq`,
  `gic_raise_inflight_irq`, `gic_remove_from_queues`, enabling/disabling a
  backing hardware interrupt, `vcpu_unblock`, `smp_send_event_check_mask`)
  are recorded as events in an emitted trace.
* The numeric `GICD_*` register offsets and `DABT_*` access sizes come from
  the repository's `asm/gic.h` / `asm/processor.h` headers (not under `src/`);
  they are the architectural GICv2 distributor map, and are corroborated by
  the literal reserved/implementation-defined ranges that appear directly in
  the `switch` of `vgic_distr_mmio_read`/`write` (0x00c-0x01c, 0x020-0x03c,
  0x040-0x07c, 0x7fc, 0xbfc, 0xf04-0xf0c, 0xf30-0xfcc, 0xfd0-0xfe4,
  0xfec-0xffc).
-/

/-! ## Constants from the repository headers -/

/-- `DABT_BYTE`: byte-sized data abort access (`dabt.size == 0`). -/
def DABT_BYTE : Nat := 0

/-- `DABT_WORD`: word-sized data abort access (`dabt.size == 2`). -/
def DABT_WORD : Nat := 2

def GICD_CTLR : Nat := 0x000
def GICD_TYPER : Nat := 0x004
def GICD_IIDR : Nat := 0x008
def GICD_IGROUPR : Nat := 0x080
def GICD_IGROUPRN : Nat := 0x0FC
def GICD_ISENABLER : Nat := 0x100
def GICD_ISENABLERN : Nat := 0x17C
def GICD_ICENABLER : Nat := 0x180
def GICD_ICENABLERN : Nat := 0x1FC
def GICD_ISPENDR : Nat := 0x200
def GICD_ISPENDRN : Nat := 0x27C
def GICD_ICPENDR : Nat := 0x280
def GICD_ICPENDRN : Nat := 0x2FC
def GICD_ISACTIVER : Nat := 0x300
def GICD_ISACTIVERN : Nat := 0x37C
def GICD_ICACTIVER : Nat := 0x380
def GICD_ICACTIVERN : Nat := 0x3FC
def GICD_IPRIORITYR : Nat := 0x400
def GICD_IPRIORITYRN : Nat := 0x7F8
def GICD_ITARGETSR : Nat := 0x800
def GICD_ITARGETSRN : Nat := 0xBF8
def GICD_ICFGR : Nat := 0xC00
def GICD_ICFGRN : Nat := 0xCFC
def GICD_NSACR : Nat := 0xE00
def GICD_NSACRN : Nat := 0xEFC
def GICD_SGIR : Nat := 0xF00
def GICD_CPENDSGIR : Nat := 0xF10
def GICD_CPENDSGIRN : Nat := 0xF1C
def GICD_SPENDSGIR : Nat := 0xF20
def GICD_SPENDSGIRN : Nat := 0xF2C
def GICD_ICPIDR2 : Nat := 0xFE8

def GICD_CTL_ENABLE : Nat := 0x1
def GICD_TYPE_LINES : Nat := 0x01F
def GICD_TYPE_CPUS : Nat := 0x0E0

def GICD_SGI_TARGET_LIST_MASK : Nat := 0x03000000
def GICD_SGI_TARGET_LIST : Nat := 0x00000000
def GICD_SGI_TARGET_OTHERS : Nat := 0x01000000
def GICD_SGI_TARGET_SELF : Nat := 0x02000000
def GICD_SGI_TARGET_SHIFT : Nat := 16
def GICD_SGI_TARGET_MASK : Nat := 0x00FF0000
def GICD_SGI_INTID_MASK : Nat := 0xF

/-! ## Bit helpers -/

/-- 32-bit bitwise complement (`~x` on a `register_t`/`uint32_t`). -/
def not32 (x : Nat) : Nat := 0xFFFFFFFF ^^^ (x &&& 0xFFFFFFFF)

/-- `vgic_byte_read(val, sign, offset)` from `asm/vgic.h`: extract the byte
lane `offset & 3` from a 32-bit register word, sign-extending when asked. -/
def vgic_byte_read (val : Nat) (sign : Bool) (offset : Nat) : Nat :=
  let byte := offset &&& 0x3
  let v := val >>> (8 * byte)
  if sign = true ∧ v &&& 0x80 ≠ 0 then v ||| 0xFFFFFF00 else v &&& 0x000000FF

/-- `vgic_byte_write(reg, var, offset)` from `asm/vgic.h`: replace the byte
lane `offset & 3` of the 32-bit word `reg` with the same lane of `var`. -/
def vgic_byte_write (reg var offset : Nat) : Nat :=
  let byte := offset &&& 0x3
  (reg &&& not32 (0xFF <<< (8 * byte))) ||| (var &&& (0xFF <<< (8 * byte)))

/-- `REG_RANK_NR(b, n)`: rank number holding register bit-group `n` for a
register bank with `b` bits per interrupt (`b` is 1, 2, 4 or 8). -/
def REG_RANK_NR (b n : Nat) : Nat :=
  if b = 8 then n >>> 3
  else if b = 4 then n >>> 2
  else if b = 2 then n >>> 1
  else n

/-- `REG_RANK_INDEX(b, n, s)`: offset of register `n` within its rank for a
bank with `b` bits per interrupt and access shift `s`. -/
def REG_RANK_INDEX (b n s : Nat) : Nat := ((n >>> s) &&& (b - 1)) % 32

/-! ## Data model -/

/-- `struct vgic_irq_rank`: the raw register state of one 32-line rank
(the per-rank spinlock is modelled away, see the header comment). -/
structure VgicIrqRank where
  ienable : Nat
  ipend : Nat
  iactive : Nat
  /-- `uint32_t ipriority[8]` -/
  ipriority : List Nat
  /-- `uint32_t itargets[8]` -/
  itargets : List Nat
  /-- `uint32_t icfg[2]` -/
  icfg : List Nat
  pendsgi : Nat
deriving DecidableEq

/-- A zeroed rank, as produced by `xzalloc`. -/
def rank0 : VgicIrqRank :=
  { ienable := 0, ipend := 0, iactive := 0,
    ipriority := List.replicate 8 0, itargets := List.replicate 8 0,
    icfg := List.replicate 2 0, pendsgi := 0 }

/-- `struct pending_irq`: one descriptor per line.  The `GIC_IRQ_GUEST_*`
status bits are the four `Bool` fields; `hasDesc` models `p->desc != NULL`
(a backing physical interrupt). -/
structure PendingIrq where
  irq : Nat
  enabled : Bool
  queued : Bool
  visible : Bool
  active : Bool
  priority : Nat
  hasDesc : Bool
deriving DecidableEq

/-- A zeroed pending-irq descriptor. -/
def pend0 : PendingIrq :=
  { irq := 0, enabled := false, queued := false, visible := false,
    active := false, priority := 0, hasDesc := false }

/-- The state touched by the distributor core, seen from the trapping vCPU
`v` (which is `current` in the MMIO handlers): the domain-wide fields
(`d->arch.vgic`), `v`'s private rank and pending table, `v`'s inflight and
list-register queues, and the scheduling flags the injection engine reads.
`vcpus` is the domain's vCPU slot array: `none` models a NULL `d->vcpu[i]`,
`some b` an allocated vCPU whose `is_vcpu_online` is `b`. -/
structure VgicState where
  ctlr : Nat
  nr_lines : Nat
  max_vcpus : Nat
  shared_irqs : List VgicIrqRank
  dom_pending : Nat → PendingIrq
  evtchn_irq : Nat
  vcpus : List (Option Bool)
  vcpu_id : Nat
  private_irqs : VgicIrqRank
  vcpu_pending : Nat → PendingIrq
  inflight : List Nat
  lr_pending : List Nat
  paused : Bool
  is_running : Bool
  is_current : Bool
  evtchn_upcall_pending : Bool

/-- `DOMAIN_NR_RANKS(d)`: number of shared ranks, `(nr_lines + 31) / 32`. -/
def DOMAIN_NR_RANKS (s : VgicState) : Nat := (s.nr_lines + 31) / 32

/-- Which rank a resolution lands in: the vCPU's private rank or one of the
domain's shared ranks. -/
inductive RankSel where
  | priv
  | shared (i : Nat)
deriving DecidableEq

/-- `vgic_rank_offset(v, b, n, s)`: rank 0 is the private rank, ranks
`1 .. DOMAIN_NR_RANKS` are shared; any larger rank is absent (`NULL`). -/
def vgic_rank_sel (s : VgicState) (b n shift : Nat) : Option RankSel :=
  let rank := REG_RANK_NR b (n >>> shift)
  if rank = 0 then some RankSel.priv
  else if rank ≤ DOMAIN_NR_RANKS s then some (RankSel.shared (rank - 1))
  else none

/-- Dereference a resolved rank. -/
def getRank (s : VgicState) : RankSel → VgicIrqRank
  | RankSel.priv => s.private_irqs
  | RankSel.shared i => s.shared_irqs.getD i rank0

/-- Store back a resolved rank. -/
def setRank (s : VgicState) : RankSel → VgicIrqRank → VgicState
  | RankSel.priv, rk => { s with private_irqs := rk }
  | RankSel.shared i, rk => { s with shared_irqs := s.shared_irqs.set i rk }

/-- `vgic_rank_irq(v, irq) = vgic_rank_offset(v, 8, irq, DABT_WORD)`. -/
def vgic_rank_irq (s : VgicState) (irq : Nat) : Option RankSel :=
  vgic_rank_sel s 8 irq DABT_WORD

/-- `irq_to_pending(v, irq)`: private descriptors for lines below 32,
the domain's table (indexed from line 32) otherwise. -/
def irq_to_pending (s : VgicState) (irq : Nat) : PendingIrq :=
  if irq < 32 then s.vcpu_pending irq else s.dom_pending (irq - 32)

/-- Store back a pending descriptor through the `irq_to_pending` indexing. -/
def set_pending (s : VgicState) (irq : Nat) (p : PendingIrq) : VgicState :=
  if irq < 32 then
    { s with vcpu_pending := fun x => if x = irq then p else s.vcpu_pending x }
  else
    { s with dom_pending := fun x => if x = irq - 32 then p else s.dom_pending x }

/-- The snapshotted priority stored in a line's descriptor. -/
def statusPrio (s : VgicState) (irq : Nat) : Nat := (irq_to_pending s irq).priority

/-! ## Collaborator events -/

/-- Calls out of the distributor core, recorded as a trace: physical-interface
operations, scheduler notifications and diagnostics (`printk`/`gdprintk`). -/
inductive GicEvent where
  | raiseGuest (irq priority : Nat)
  | raiseInflight (irq : Nat)
  | removeQueues (irq : Nat)
  | descEnable (irq : Nat)
  | descDisable (irq : Nat)
  | unblock
  | smpNotify
  | sgiInject (vcpuid irq : Nat)
  | sgiSkip (vcpuid : Nat)
  | diag
deriving DecidableEq

/-! ## Injection engine -/

/-- The insertion loop of `vgic_vcpu_inject_irq` (vgic.c:709-717): walk the
inflight list and link the new entry just before the first entry whose
snapshotted priority is strictly greater, or at the tail. -/
def inflight_insert (f : Nat → Nat) (n p : Nat) : List Nat → List Nat
  | [] => [n]
  | x :: xs => if p < f x then n :: x :: xs else x :: inflight_insert f n p xs

/-- The priority snapshot of `vgic_vcpu_inject_irq` (vgic.c:699): read the
line's current priority byte from its rank.  A `NULL` rank dereference is
undefined behaviour in C and unreachable for lines below the configured
count; it is modelled as reading a zero rank. -/
def prioSnapshot (s : VgicState) (irq : Nat) : Nat :=
  let rk := match vgic_rank_irq s irq with
            | some rs => getRank s rs
            | none => rank0
  vgic_byte_read (rk.ipriority.getD (REG_RANK_INDEX 8 irq DABT_WORD) 0) false (irq &&& 0x3)

/-- The trailing notification of `vgic_vcpu_inject_irq` (vgic.c:720-724),
executed after the list lock is released: always `vcpu_unblock`, plus a
cross-processor notification when the target is running elsewhere. -/
def inject_tail_events (s : VgicState) : List GicEvent :=
  GicEvent.unblock ::
    (if s.is_running = true ∧ s.is_current = false then [GicEvent.smpNotify] else [])

/-- `vgic_vcpu_inject_irq(v, irq)` (vgic.c:675-725).  Branches in source
order: already-inflight coalescing, offline drop, then snapshot + queue +
optional raise + ordered insertion, then the post-unlock notification. -/
def vgic_vcpu_inject_irq (s : VgicState) (irq : Nat) : VgicState × List GicEvent :=
  if irq ∈ s.inflight then
    let p := irq_to_pending s irq
    let s1 := set_pending s irq { p with queued := true }
    (s1, GicEvent.raiseInflight irq :: inject_tail_events s1)
  else if s.paused = true then
    (s, [])
  else
    let priority := prioSnapshot s irq
    let p := irq_to_pending s irq
    let s1 := set_pending s irq { p with irq := irq, queued := true, priority := priority }
    let evs := if p.enabled = true then [GicEvent.raiseGuest irq priority] else []
    let s2 := { s1 with inflight := inflight_insert (statusPrio s1) irq priority s1.inflight }
    (s2, evs ++ inject_tail_events s2)

/-- Run a sequence of injections, discarding traces. -/
def injectSeq (s : VgicState) (irqs : List Nat) : VgicState :=
  irqs.foldl (fun st i => (vgic_vcpu_inject_irq st i).1) s

/-! ## Enable/disable transitions -/

/-- Modelled from the spec: `gic_remove_from_queues` lives in the
physical-interface collaborator (`xen/arch/arm/gic.c`, which is not under
`src/`); per the spec's 4.3 it must "unconditionally remove the line from
whatever queue holds it (inflight list or hardware list-register queue)". -/
def gic_remove_from_queues (s : VgicState) (irq : Nat) : VgicState :=
  { s with inflight := s.inflight.filter (fun x => x != irq),
           lr_pending := s.lr_pending.filter (fun x => x != irq) }

/-- One iteration of the `vgic_disable_irqs` loop (vgic.c:357-369) for set
bit `i` of word `n`: clear the enabled status, remove the line from all
delivery queues, and disable the backing physical interrupt if present. -/
def vgic_disable_one (n : Nat) (acc : VgicState × List GicEvent) (i : Nat) :
    VgicState × List GicEvent :=
  let s := acc.1
  let irq := i + 32 * n
  let p := irq_to_pending s irq
  let s1 := set_pending s irq { p with enabled := false }
  let s2 := gic_remove_from_queues s1 irq
  (s2, acc.2 ++ GicEvent.removeQueues irq ::
         (if p.hasDesc = true then [GicEvent.descDisable irq] else []))

/-- `vgic_disable_irqs(v, r, n)` (vgic.c:349-370): iterate the set bits of
the 32-bit mask `r` in ascending order (`find_next_bit`). -/
def vgic_disable_irqs (s : VgicState) (r n : Nat) : VgicState × List GicEvent :=
  ((List.range 32).filter (fun i => r.testBit i)).foldl (vgic_disable_one n) (s, [])

/-- One iteration of the `vgic_enable_irqs` loop (vgic.c:380-405) for set bit
`i` of word `n`: set the enabled status; force-inject the event-channel line
when its upcall is already latched and it is not inflight; otherwise re-raise
it at the physical interface when it is inflight but not yet visible; finally
enable the backing physical interrupt if present. -/
def vgic_enable_one (n : Nat) (acc : VgicState × List GicEvent) (i : Nat) :
    VgicState × List GicEvent :=
  let s := acc.1
  let irq := i + 32 * n
  let p := irq_to_pending s irq
  let p1 := { p with enabled := true }
  let s1 := set_pending s irq p1
  let r2 :=
    if irq = s1.evtchn_irq ∧ s1.evtchn_upcall_pending = true ∧ irq ∉ s1.inflight then
      vgic_vcpu_inject_irq s1 irq
    else
      (s1, if irq ∈ s1.inflight ∧ p1.visible = false
           then [GicEvent.raiseGuest irq p1.priority] else [])
  (r2.1, acc.2 ++ r2.2 ++ (if p1.hasDesc = true then [GicEvent.descEnable irq] else []))

/-- `vgic_enable_irqs(v, r, n)` (vgic.c:372-406). -/
def vgic_enable_irqs (s : VgicState) (r n : Nat) : VgicState × List GicEvent :=
  ((List.range 32).filter (fun i => r.testBit i)).foldl (vgic_enable_one n) (s, [])

/-! ## SGI dispatcher -/

/-- The delivery loop of `vgic_to_sgi` (vgic.c:445-454) over the resolved
target vCPU ids, in ascending order (`for_each_set_bit`).  A slot holding an
allocated but offline vCPU is skipped with a diagnostic; an online vCPU gets
an injection.  A `NULL` slot (`d->vcpu[vcpuid] == NULL`) fails the source's
`d->vcpu[vcpuid] != NULL && !is_vcpu_online(...)` skip test and therefore
reaches `vgic_vcpu_inject_irq(NULL, ...)` — a NULL dereference, returned
here as `none` (undefined behaviour). -/
def sgi_deliver (slots : List (Option Bool)) (virq : Nat) :
    List Nat → Option (List GicEvent)
  | [] => some []
  | vid :: rest =>
    match slots.getD vid none with
    | none => none
    | some false => (sgi_deliver slots virq rest).map (fun evs => GicEvent.sgiSkip vid :: evs)
    | some true =>
      (sgi_deliver slots virq rest).map (fun evs => GicEvent.sgiInject vid virq :: evs)

/-- Deliver to the set bits of `mask` below `max_vcpus`
(`for_each_set_bit(vcpuid, &vcpu_mask, d->max_vcpus)`). -/
def vgic_sgi_dispatch (s : VgicState) (virq mask : Nat) : Option (Nat × List GicEvent) :=
  (sgi_deliver s.vcpus virq
      ((List.range s.max_vcpus).filter (fun i => mask.testBit i))).map
    (fun evs => (1, evs))

/-- The `GICD_SGI_TARGET_OTHERS` mask (vgic.c:429-434): every vCPU id below
`max_vcpus` other than the sender whose slot is allocated and online. -/
def sgi_others_mask (s : VgicState) : Nat :=
  (List.range s.max_vcpus).foldl
    (fun m i => if i ≠ s.vcpu_id ∧ s.vcpus.getD i none = some true
                then m ||| (1 <<< i) else m) 0

/-- `vgic_to_sgi(v, sgir)` (vgic.c:408-456): decode the target-list filter
and the 4-bit interrupt id, resolve the target mask, and drive the delivery
loop.  An unrecognized filter logs a diagnostic and returns 0 (the write is
then reported unhandled by the caller); `none` models the NULL-slot
dereference described at `sgi_deliver`. -/
def vgic_to_sgi (s : VgicState) (sgir : Nat) : Option (Nat × List GicEvent) :=
  let filter := sgir &&& GICD_SGI_TARGET_LIST_MASK
  let virtual_irq := sgir &&& GICD_SGI_INTID_MASK
  if filter = GICD_SGI_TARGET_LIST then
    vgic_sgi_dispatch s virtual_irq
      ((sgir &&& GICD_SGI_TARGET_MASK) >>> GICD_SGI_TARGET_SHIFT)
  else if filter = GICD_SGI_TARGET_OTHERS then
    vgic_sgi_dispatch s virtual_irq (sgi_others_mask s)
  else if filter = GICD_SGI_TARGET_SELF then
    vgic_sgi_dispatch s virtual_irq (1 <<< s.vcpu_id)
  else
    some (0, [GicEvent.diag])

/-! ## MMIO dispatch -/

/-- The register group a distributor-frame byte offset decodes to: the cases
of the `switch (gicd_reg)` in `vgic_distr_mmio_read`/`write`, at the finer
granularity used by the write path (`ITARGETSR0` is the read-only first 8
bytes of the target bank; `ICFGR0`/`ICFGR1` are the two write-ignored config
offsets `GICD_ICFGR` and `GICD_ICFGR + 1`).  `reserved` and `implDef` are
the literal reserved / implementation-defined ranges; `unknown` is the
`default:` case. -/
inductive GicdReg where
  | CTLR
  | TYPER
  | IIDR
  | reserved
  | implDef
  | IGROUPR
  | ISENABLER
  | ICENABLER
  | ISPENDR
  | ICPENDR
  | ISACTIVER
  | ICACTIVER
  | IPRIORITYR
  | ITARGETSR0
  | ITARGETSR
  | ICFGR0
  | ICFGR1
  | ICFGR
  | NSACR
  | SGIR
  | CPENDSGIR
  | SPENDSGIR
  | ICPIDR2
  | unknown
deriving DecidableEq

/-- Decode a byte offset into the distributor frame, following the case
labels of the `switch` (all case ranges are inclusive integer ranges). -/
def gicd_decode (off : Nat) : GicdReg :=
  if off = GICD_CTLR then GicdReg.CTLR
  else if off = GICD_TYPER then GicdReg.TYPER
  else if off = GICD_IIDR then GicdReg.IIDR
  else if 0x00C ≤ off ∧ off ≤ 0x01C then GicdReg.reserved
  else if 0x020 ≤ off ∧ off ≤ 0x03C then GicdReg.implDef
  else if 0x040 ≤ off ∧ off ≤ 0x07C then GicdReg.reserved
  else if GICD_IGROUPR ≤ off ∧ off ≤ GICD_IGROUPRN then GicdReg.IGROUPR
  else if GICD_ISENABLER ≤ off ∧ off ≤ GICD_ISENABLERN then GicdReg.ISENABLER
  else if GICD_ICENABLER ≤ off ∧ off ≤ GICD_ICENABLERN then GicdReg.ICENABLER
  else if GICD_ISPENDR ≤ off ∧ off ≤ GICD_ISPENDRN then GicdReg.ISPENDR
  else if GICD_ICPENDR ≤ off ∧ off ≤ GICD_ICPENDRN then GicdReg.ICPENDR
  else if GICD_ISACTIVER ≤ off ∧ off ≤ GICD_ISACTIVERN then GicdReg.ISACTIVER
  else if GICD_ICACTIVER ≤ off ∧ off ≤ GICD_ICACTIVERN then GicdReg.ICACTIVER
  else if GICD_IPRIORITYR ≤ off ∧ off ≤ GICD_IPRIORITYRN then GicdReg.IPRIORITYR
  else if off = 0x7FC then GicdReg.reserved
  else if GICD_ITARGETSR ≤ off ∧ off ≤ GICD_ITARGETSR + 7 then GicdReg.ITARGETSR0
  else if GICD_ITARGETSR + 8 ≤ off ∧ off ≤ GICD_ITARGETSRN then GicdReg.ITARGETSR
  else if off = 0xBFC then GicdReg.reserved
  else if off = GICD_ICFGR then GicdReg.ICFGR0
  else if off = GICD_ICFGR + 1 then GicdReg.ICFGR1
  else if GICD_ICFGR + 2 ≤ off ∧ off ≤ GICD_ICFGRN then GicdReg.ICFGR
  else if GICD_NSACR ≤ off ∧ off ≤ GICD_NSACRN then GicdReg.NSACR
  else if off = GICD_SGIR then GicdReg.SGIR
  else if 0xF04 ≤ off ∧ off ≤ 0xF0C then GicdReg.reserved
  else if GICD_CPENDSGIR ≤ off ∧ off ≤ GICD_CPENDSGIRN then GicdReg.CPENDSGIR
  else if GICD_SPENDSGIR ≤ off ∧ off ≤ GICD_SPENDSGIRN then GicdReg.SPENDSGIR
  else if 0xF30 ≤ off ∧ off ≤ 0xFCC then GicdReg.reserved
  else if 0xFD0 ≤ off ∧ off ≤ 0xFE4 then GicdReg.implDef
  else if off = GICD_ICPIDR2 then GicdReg.ICPIDR2
  else if 0xFEC ≤ off ∧ off ≤ 0xFFC then GicdReg.implDef
  else GicdReg.unknown

/-- Outcome of a trapped access: `handled` (return 1), `unhandled`
(return 0, the trap layer synthesizes a guest fault), `crash`
(`domain_crash_synchronous` from `bad_width`), `ub` (the NULL-vCPU
dereference reachable through `vgic_to_sgi`, see `sgi_deliver`). -/
inductive HStatus where
  | handled
  | unhandled
  | crash
  | ub
deriving DecidableEq

/-- Result of `vgic_distr_mmio_read`: outcome, value placed in the guest
register, and the (never modified) distributor state threaded through. -/
structure ReadRes where
  status : HStatus
  value : Nat
  st : VgicState

/-- Result of `vgic_distr_mmio_write`: outcome, resulting distributor state,
and the trace of collaborator calls and diagnostics. -/
structure WriteRes where
  status : HStatus
  st : VgicState
  events : List GicEvent

/-- The `bad_width` label of `vgic_distr_mmio_read` (vgic.c:337-341):
diagnostic, then synchronous domain termination; no state was changed. -/
def bad_width_read (s : VgicState) : ReadRes := ⟨HStatus.crash, 0, s⟩

/-- The `read_as_zero` label (vgic.c:343-346): word accesses read zero, any
other width falls into `bad_width`. -/
def read_as_zero (s : VgicState) (size : Nat) : ReadRes :=
  if size ≠ DABT_WORD then bad_width_read s else ⟨HStatus.handled, 0, s⟩

/-- The `bad_width` label of `vgic_distr_mmio_write` (vgic.c:640-644). -/
def bad_width_write (s : VgicState) : WriteRes := ⟨HStatus.crash, s, [GicEvent.diag]⟩

/-- The `write_ignore` label (vgic.c:646-648): word writes are ignored, any
other width falls into `bad_width`. -/
def write_ignore (s : VgicState) (size : Nat) : WriteRes :=
  if size ≠ DABT_WORD then bad_width_write s else ⟨HStatus.handled, s, []⟩

/-- The per-group body of `vgic_distr_mmio_read` (vgic.c:151-347), given the
decoded group of `off`.  Each arm mirrors the corresponding `case`. -/
def vgic_distr_read_reg (s : VgicState) (g : GicdReg) (off size : Nat)
    (sign : Bool) : ReadRes :=
  match g with
  | GicdReg.CTLR =>
    if size ≠ DABT_WORD then bad_width_read s else ⟨HStatus.handled, s.ctlr, s⟩
  | GicdReg.TYPER =>
    if size ≠ DABT_WORD then bad_width_read s else
    ⟨HStatus.handled,
      ((s.max_vcpus <<< 5) &&& GICD_TYPE_CPUS) ||| ((s.nr_lines / 32) &&& GICD_TYPE_LINES), s⟩
  | GicdReg.IIDR =>
    if size ≠ DABT_WORD then bad_width_read s else ⟨HStatus.handled, 0x0000043B, s⟩
  | GicdReg.reserved => read_as_zero s size
  | GicdReg.implDef => read_as_zero s size
  | GicdReg.IGROUPR => read_as_zero s size
  | GicdReg.ISENABLER =>
    if size ≠ DABT_WORD then bad_width_read s else
    match vgic_rank_sel s 1 (off - GICD_ISENABLER) DABT_WORD with
    | none => read_as_zero s size
    | some rs => ⟨HStatus.handled, (getRank s rs).ienable, s⟩
  | GicdReg.ICENABLER =>
    if size ≠ DABT_WORD then bad_width_read s else
    match vgic_rank_sel s 1 (off - GICD_ICENABLER) DABT_WORD with
    | none => read_as_zero s size
    | some rs => ⟨HStatus.handled, (getRank s rs).ienable, s⟩
  | GicdReg.ISPENDR =>
    if size ≠ DABT_BYTE ∧ size ≠ DABT_WORD then bad_width_read s else
    match vgic_rank_sel s 1 (off - GICD_ISPENDR) DABT_WORD with
    | none => read_as_zero s size
    | some rs => ⟨HStatus.handled, vgic_byte_read (getRank s rs).ipend sign off, s⟩
  | GicdReg.ICPENDR =>
    if size ≠ DABT_BYTE ∧ size ≠ DABT_WORD then bad_width_read s else
    match vgic_rank_sel s 1 (off - GICD_ICPENDR) DABT_WORD with
    | none => read_as_zero s size
    | some rs => ⟨HStatus.handled, vgic_byte_read (getRank s rs).ipend sign off, s⟩
  | GicdReg.ISACTIVER =>
    if size ≠ DABT_WORD then bad_width_read s else
    match vgic_rank_sel s 1 (off - GICD_ISACTIVER) DABT_WORD with
    | none => read_as_zero s size
    | some rs => ⟨HStatus.handled, (getRank s rs).iactive, s⟩
  | GicdReg.ICACTIVER =>
    if size ≠ DABT_WORD then bad_width_read s else
    match vgic_rank_sel s 1 (off - GICD_ICACTIVER) DABT_WORD with
    | none => read_as_zero s size
    | some rs => ⟨HStatus.handled, (getRank s rs).iactive, s⟩
  | GicdReg.ITARGETSR0 =>
    if size ≠ DABT_BYTE ∧ size ≠ DABT_WORD then bad_width_read s else
    match vgic_rank_sel s 8 (off - GICD_ITARGETSR) DABT_WORD with
    | none => read_as_zero s size
    | some rs =>
      let w := (getRank s rs).itargets.getD
                 (REG_RANK_INDEX 8 (off - GICD_ITARGETSR) DABT_WORD) 0
      ⟨HStatus.handled, if size = DABT_BYTE then vgic_byte_read w sign off else w, s⟩
  | GicdReg.ITARGETSR =>
    if size ≠ DABT_BYTE ∧ size ≠ DABT_WORD then bad_width_read s else
    match vgic_rank_sel s 8 (off - GICD_ITARGETSR) DABT_WORD with
    | none => read_as_zero s size
    | some rs =>
      let w := (getRank s rs).itargets.getD
                 (REG_RANK_INDEX 8 (off - GICD_ITARGETSR) DABT_WORD) 0
      ⟨HStatus.handled, if size = DABT_BYTE then vgic_byte_read w sign off else w, s⟩
  | GicdReg.IPRIORITYR =>
    if size ≠ 0 ∧ size ≠ DABT_WORD then bad_width_read s else
    match vgic_rank_sel s 8 (off - GICD_IPRIORITYR) DABT_WORD with
    | none => read_as_zero s size
    | some rs =>
      let w := (getRank s rs).ipriority.getD
                 (REG_RANK_INDEX 8 (off - GICD_IPRIORITYR) DABT_WORD) 0
      ⟨HStatus.handled, if size = DABT_BYTE then vgic_byte_read w sign off else w, s⟩
  | GicdReg.ICFGR0 =>
    if size ≠ DABT_WORD then bad_width_read s else
    match vgic_rank_sel s 2 (off - GICD_ICFGR) DABT_WORD with
    | none => read_as_zero s size
    | some rs =>
      ⟨HStatus.handled,
        (getRank s rs).icfg.getD (REG_RANK_INDEX 2 (off - GICD_ICFGR) DABT_WORD) 0, s⟩
  | GicdReg.ICFGR1 =>
    if size ≠ DABT_WORD then bad_width_read s else
    match vgic_rank_sel s 2 (off - GICD_ICFGR) DABT_WORD with
    | none => read_as_zero s size
    | some rs =>
      ⟨HStatus.handled,
        (getRank s rs).icfg.getD (REG_RANK_INDEX 2 (off - GICD_ICFGR) DABT_WORD) 0, s⟩
  | GicdReg.ICFGR =>
    if size ≠ DABT_WORD then bad_width_read s else
    match vgic_rank_sel s 2 (off - GICD_ICFGR) DABT_WORD with
    | none => read_as_zero s size
    | some rs =>
      ⟨HStatus.handled,
        (getRank s rs).icfg.getD (REG_RANK_INDEX 2 (off - GICD_ICFGR) DABT_WORD) 0, s⟩
  | GicdReg.NSACR => read_as_zero s size
  | GicdReg.SGIR =>
    if size ≠ DABT_WORD then bad_width_read s else ⟨HStatus.handled, 0xDEADBEEF, s⟩
  | GicdReg.CPENDSGIR =>
    if size ≠ DABT_BYTE ∧ size ≠ DABT_WORD then bad_width_read s else
    match vgic_rank_sel s 1 (off - GICD_CPENDSGIR) DABT_WORD with
    | none => read_as_zero s size
    | some rs => ⟨HStatus.handled, vgic_byte_read (getRank s rs).pendsgi sign off, s⟩
  | GicdReg.SPENDSGIR =>
    if size ≠ DABT_BYTE ∧ size ≠ DABT_WORD then bad_width_read s else
    match vgic_rank_sel s 1 (off - GICD_SPENDSGIR) DABT_WORD with
    | none => read_as_zero s size
    | some rs => ⟨HStatus.handled, vgic_byte_read (getRank s rs).pendsgi sign off, s⟩
  | GicdReg.ICPIDR2 =>
    if size ≠ DABT_WORD then bad_width_read s else ⟨HStatus.unhandled, 0, s⟩
  | GicdReg.unknown => ⟨HStatus.unhandled, 0, s⟩

/-- `vgic_distr_mmio_read(v, info)` with `gicd_reg = off`, `dabt.size = size`
and `dabt.sign = sign`. -/
def vgic_distr_mmio_read (s : VgicState) (off size : Nat) (sign : Bool) : ReadRes :=
  vgic_distr_read_reg s (gicd_decode off) off size sign

/-- The per-group body of `vgic_distr_mmio_write` (vgic.c:458-649), given the
decoded group of `off`.  Each arm mirrors the corresponding `case`; `val` is
the guest register `*r`. -/
def vgic_distr_write_reg (s : VgicState) (g : GicdReg) (off size val : Nat) : WriteRes :=
  match g with
  | GicdReg.CTLR =>
    if size ≠ DABT_WORD then bad_width_write s else
    ⟨HStatus.handled, { s with ctlr := val &&& GICD_CTL_ENABLE }, []⟩
  | GicdReg.TYPER => write_ignore s size
  | GicdReg.IIDR => write_ignore s size
  | GicdReg.reserved => write_ignore s size
  | GicdReg.implDef => write_ignore s size
  | GicdReg.IGROUPR => write_ignore s size
  | GicdReg.ISENABLER =>
    if size ≠ DABT_WORD then bad_width_write s else
    match vgic_rank_sel s 1 (off - GICD_ISENABLER) DABT_WORD with
    | none => write_ignore s size
    | some rs =>
      let rk := getRank s rs
      let tr := rk.ienable
      let s1 := setRank s rs { rk with ienable := rk.ienable ||| val }
      let r2 := vgic_enable_irqs s1 (val &&& not32 tr) ((off - GICD_ISENABLER) >>> DABT_WORD)
      ⟨HStatus.handled, r2.1, r2.2⟩
  | GicdReg.ICENABLER =>
    if size ≠ DABT_WORD then bad_width_write s else
    match vgic_rank_sel s 1 (off - GICD_ICENABLER) DABT_WORD with
    | none => write_ignore s size
    | some rs =>
      let rk := getRank s rs
      let tr := rk.ienable
      let s1 := setRank s rs { rk with ienable := rk.ienable &&& not32 val }
      let r2 := vgic_disable_irqs s1 (val &&& tr) ((off - GICD_ICENABLER) >>> DABT_WORD)
      ⟨HStatus.handled, r2.1, r2.2⟩
  | GicdReg.ISPENDR =>
    if size ≠ DABT_BYTE ∧ size ≠ DABT_WORD then bad_width_write s else
    ⟨HStatus.unhandled, s, [GicEvent.diag]⟩
  | GicdReg.ICPENDR =>
    if size ≠ DABT_BYTE ∧ size ≠ DABT_WORD then bad_width_write s else
    ⟨HStatus.unhandled, s, [GicEvent.diag]⟩
  | GicdReg.ISACTIVER =>
    if size ≠ DABT_WORD then bad_width_write s else
    match vgic_rank_sel s 1 (off - GICD_ISACTIVER) DABT_WORD with
    | none => write_ignore s size
    | some rs =>
      let rk := getRank s rs
      ⟨HStatus.handled, setRank s rs { rk with iactive := rk.iactive &&& not32 val }, []⟩
  | GicdReg.ICACTIVER =>
    if size ≠ DABT_WORD then bad_width_write s else
    match vgic_rank_sel s 1 (off - GICD_ICACTIVER) DABT_WORD with
    | none => write_ignore s size
    | some rs =>
      let rk := getRank s rs
      ⟨HStatus.handled, setRank s rs { rk with iactive := rk.iactive &&& not32 val }, []⟩
  | GicdReg.ITARGETSR0 => write_ignore s size
  | GicdReg.ITARGETSR =>
    if size ≠ DABT_BYTE ∧ size ≠ DABT_WORD then bad_width_write s else
    match vgic_rank_sel s 8 (off - GICD_ITARGETSR) DABT_WORD with
    | none => write_ignore s size
    | some rs =>
      let rk := getRank s rs
      let idx := REG_RANK_INDEX 8 (off - GICD_ITARGETSR) DABT_WORD
      let w := if size = DABT_WORD then val
               else vgic_byte_write (rk.itargets.getD idx 0) val off
      ⟨HStatus.handled, setRank s rs { rk with itargets := rk.itargets.set idx w }, []⟩
  | GicdReg.IPRIORITYR =>
    if size ≠ DABT_BYTE ∧ size ≠ DABT_WORD then bad_width_write s else
    match vgic_rank_sel s 8 (off - GICD_IPRIORITYR) DABT_WORD with
    | none => write_ignore s size
    | some rs =>
      let rk := getRank s rs
      let idx := REG_RANK_INDEX 8 (off - GICD_IPRIORITYR) DABT_WORD
      let w := if size = DABT_WORD then val
               else vgic_byte_write (rk.ipriority.getD idx 0) val off
      ⟨HStatus.handled, setRank s rs { rk with ipriority := rk.ipriority.set idx w }, []⟩
  | GicdReg.ICFGR0 => write_ignore s size
  | GicdReg.ICFGR1 => write_ignore s size
  | GicdReg.ICFGR =>
    if size ≠ DABT_WORD then bad_width_write s else
    match vgic_rank_sel s 2 (off - GICD_ICFGR) DABT_WORD with
    | none => write_ignore s size
    | some rs =>
      let rk := getRank s rs
      let idx := REG_RANK_INDEX 2 (off - GICD_ICFGR) DABT_WORD
      ⟨HStatus.handled, setRank s rs { rk with icfg := rk.icfg.set idx val }, []⟩
  | GicdReg.NSACR => write_ignore s size
  | GicdReg.SGIR =>
    if size ≠ 2 then bad_width_write s else
    match vgic_to_sgi s val with
    | none => ⟨HStatus.ub, s, []⟩
    | some r =>
      ⟨if r.1 = 1 then HStatus.handled else HStatus.unhandled, s, r.2⟩
  | GicdReg.CPENDSGIR =>
    if size ≠ DABT_BYTE ∧ size ≠ DABT_WORD then bad_width_write s else
    ⟨HStatus.unhandled, s, [GicEvent.diag]⟩
  | GicdReg.SPENDSGIR =>
    if size ≠ DABT_BYTE ∧ size ≠ DABT_WORD then bad_width_write s else
    ⟨HStatus.unhandled, s, [GicEvent.diag]⟩
  | GicdReg.ICPIDR2 => write_ignore s size
  | GicdReg.unknown => ⟨HStatus.unhandled, s, [GicEvent.diag]⟩

/-- `vgic_distr_mmio_write(v, info)` with `gicd_reg = off`, `dabt.size =
size` and `*r = val`. -/
def vgic_distr_mmio_write (s : VgicState) (off size val : Nat) : WriteRes :=
  vgic_distr_write_reg s (gicd_decode off) off size val

/-! ## Per-group access policy, read off the handler bodies -/

/-- Which register groups consult `vgic_rank_offset` on the READ path, and
with which bits-per-line and base offset. -/
def readRankSpec : GicdReg → Option (Nat × Nat)
  | GicdReg.ISENABLER => some (1, GICD_ISENABLER)
  | GicdReg.ICENABLER => some (1, GICD_ICENABLER)
  | GicdReg.ISPENDR => some (1, GICD_ISPENDR)
  | GicdReg.ICPENDR => some (1, GICD_ICPENDR)
  | GicdReg.ISACTIVER => some (1, GICD_ISACTIVER)
  | GicdReg.ICACTIVER => some (1, GICD_ICACTIVER)
  | GicdReg.IPRIORITYR => some (8, GICD_IPRIORITYR)
  | GicdReg.ITARGETSR0 => some (8, GICD_ITARGETSR)
  | GicdReg.ITARGETSR => some (8, GICD_ITARGETSR)
  | GicdReg.ICFGR0 => some (2, GICD_ICFGR)
  | GicdReg.ICFGR1 => some (2, GICD_ICFGR)
  | GicdReg.ICFGR => some (2, GICD_ICFGR)
  | GicdReg.CPENDSGIR => some (1, GICD_CPENDSGIR)
  | GicdReg.SPENDSGIR => some (1, GICD_SPENDSGIR)
  | _ => none

/-- Which register groups consult `vgic_rank_offset` on the WRITE path
(the pending and SGI-pending writes are unimplemented and never resolve a
rank; the read-only target/config sub-groups go straight to
`write_ignore`). -/
def writeRankSpec : GicdReg → Option (Nat × Nat)
  | GicdReg.ISENABLER => some (1, GICD_ISENABLER)
  | GicdReg.ICENABLER => some (1, GICD_ICENABLER)
  | GicdReg.ISACTIVER => some (1, GICD_ISACTIVER)
  | GicdReg.ICACTIVER => some (1, GICD_ICACTIVER)
  | GicdReg.ITARGETSR => some (8, GICD_ITARGETSR)
  | GicdReg.IPRIORITYR => some (8, GICD_IPRIORITYR)
  | GicdReg.ICFGR => some (2, GICD_ICFGR)
  | _ => none

/-- The access widths each defined register group accepts on the READ path
(the `default:` case performs no width check). -/
def readWidths : GicdReg → Nat → Bool
  | GicdReg.ISPENDR, size => size == DABT_BYTE || size == DABT_WORD
  | GicdReg.ICPENDR, size => size == DABT_BYTE || size == DABT_WORD
  | GicdReg.ITARGETSR0, size => size == DABT_BYTE || size == DABT_WORD
  | GicdReg.ITARGETSR, size => size == DABT_BYTE || size == DABT_WORD
  | GicdReg.IPRIORITYR, size => size == DABT_BYTE || size == DABT_WORD
  | GicdReg.CPENDSGIR, size => size == DABT_BYTE || size == DABT_WORD
  | GicdReg.SPENDSGIR, size => size == DABT_BYTE || size == DABT_WORD
  | GicdReg.unknown, _ => true
  | _, size => size == DABT_WORD

/-- The access widths each defined register group accepts on the WRITE path. -/
def writeWidths : GicdReg → Nat → Bool
  | GicdReg.ISPENDR, size => size == DABT_BYTE || size == DABT_WORD
  | GicdReg.ICPENDR, size => size == DABT_BYTE || size == DABT_WORD
  | GicdReg.ITARGETSR, size => size == DABT_BYTE || size == DABT_WORD
  | GicdReg.IPRIORITYR, size => size == DABT_BYTE || size == DABT_WORD
  | GicdReg.CPENDSGIR, size => size == DABT_BYTE || size == DABT_WORD
  | GicdReg.SPENDSGIR, size => size == DABT_BYTE || size == DABT_WORD
  | GicdReg.unknown, _ => true
  | _, size => size == DABT_WORD

/-! ## Reachability by injection -/

/-- States whose inflight list was built purely by `vgic_vcpu_inject_irq`
calls, starting from any state with an empty inflight list. -/
inductive InjectReach : VgicState → Prop where
  | start (s : VgicState) (h : s.inflight = []) : InjectReach s
  | step (s : VgicState) (irq : Nat) (hs : InjectReach s) :
      InjectReach (vgic_vcpu_inject_irq s irq).1

/-! ## Concrete states used by witnesses and counterexamples -/

/-- A baseline domain/vCPU state: 64 shared lines (2 shared ranks), one
online vCPU, everything zeroed, vCPU online and current. -/
def st0 : VgicState :=
  { ctlr := 0, nr_lines := 64, max_vcpus := 1, shared_irqs := [rank0, rank0],
    dom_pending := fun _ => pend0, evtchn_irq := 0, vcpus := [some true],
    vcpu_id := 0, private_irqs := rank0, vcpu_pending := fun _ => pend0,
    inflight := [], lr_pending := [], paused := false, is_running := false,
    is_current := true, evtchn_upcall_pending := false }

/-- A non-privileged guest: zero configured shared lines, so every shared
rank is absent. -/
def stAbsent : VgicState := { st0 with nr_lines := 0, shared_irqs := [] }

/-- State for the C3 ordering example: private lines 16-19 have configured
priorities 0x80, 0x10, 0x80, 0x40 (priority word 4 = 0x40801080). -/
def stPrio : VgicState :=
  { st0 with nr_lines := 0, shared_irqs := [],
             private_irqs := { rank0 with ipriority := [0, 0, 0, 0, 0x40801080, 0, 0, 0] } }

/-- State with active bits 0-3 set in the private rank. -/
def stActive : VgicState :=
  { st0 with private_irqs := { rank0 with iactive := 0xF } }

/-- Two-vCPU domain whose second slot was never allocated
(`d->vcpu[1] == NULL`). -/
def stSlotNull : VgicState := { st0 with max_vcpus := 2, vcpus := [some true, none] }

/-- Two-vCPU domain, both allocated and online. -/
def stSlotOk : VgicState := { st0 with max_vcpus := 2, vcpus := [some true, some true] }

/-- Two-vCPU domain, second vCPU allocated but offline. -/
def stSlotOff : VgicState := { st0 with max_vcpus := 2, vcpus := [some true, some false] }

/-- Baseline state with the vCPU administratively offline (`_VPF_down`). -/
def stPaused : VgicState := { st0 with paused := true }

/-- State for the C8 witness: line 17 is inflight and not yet visible, line
5 is enabled with a backing physical interrupt and sits in the
list-register queue. -/
def stC8 : VgicState :=
  { st0 with inflight := [17], lr_pending := [5],
             vcpu_pending := fun x =>
               if x = 5 then { pend0 with enabled := true, hasDesc := true } else pend0 }

/-! ## Helper lemmas: pending-table updates -/

theorem set_pending_inflight (s : VgicState) (irq : Nat) (p : PendingIrq) :
    (set_pending s irq p).inflight = s.inflight := by
  unfold set_pending; split <;> rfl

theorem set_pending_lr (s : VgicState) (irq : Nat) (p : PendingIrq) :
    (set_pending s irq p).lr_pending = s.lr_pending := by
  unfold set_pending; split <;> rfl

theorem set_pending_paused (s : VgicState) (irq : Nat) (p : PendingIrq) :
    (set_pending s irq p).paused = s.paused := by
  unfold set_pending; split <;> rfl

theorem irq_to_pending_set_same (s : VgicState) (irq : Nat) (p : PendingIrq) :
    irq_to_pending (set_pending s irq p) irq = p := by
  unfold set_pending irq_to_pending
  by_cases h : irq < 32 <;> simp [h]

theorem irq_to_pending_set_ne (s : VgicState) (irq x : Nat) (p : PendingIrq)
    (h : x ≠ irq) : irq_to_pending (set_pending s irq p) x = irq_to_pending s x := by
  unfold set_pending irq_to_pending
  by_cases h1 : irq < 32 <;> by_cases h2 : x < 32
  · simp [h1, h2, h]
  · simp [h1, h2]
  · simp [h1, h2]
  · have h3 : x - 32 ≠ irq - 32 := by omega
    simp [h1, h2, h3]

/-! ## Helper lemmas: the insertion loop -/

theorem self_mem_inflight_insert (f : Nat → Nat) (n p : Nat) :
    ∀ l : List Nat, n ∈ inflight_insert f n p l := by
  intro l
  induction l with
  | nil => simp [inflight_insert]
  | cons x xs ih => by_cases hc : p < f x <;> simp [inflight_insert, hc, ih]

theorem mem_inflight_insert {f : Nat → Nat} {n p y : Nat} :
    ∀ {l : List Nat}, y ∈ inflight_insert f n p l → y = n ∨ y ∈ l := by
  intro l
  induction l with
  | nil => intro h; simp [inflight_insert] at h; exact Or.inl h
  | cons x xs ih =>
    intro h
    by_cases hc : p < f x
    · simp only [inflight_insert, if_pos hc, List.mem_cons] at h
      rcases h with h | h | h
      · exact Or.inl h
      · exact Or.inr (by simp [h])
      · exact Or.inr (List.mem_cons_of_mem x h)
    · simp only [inflight_insert, if_neg hc, List.mem_cons] at h
      rcases h with h | h
      · exact Or.inr (by simp [h])
      · rcases ih h with h' | h'
        · exact Or.inl h'
        · exact Or.inr (List.mem_cons_of_mem x h')

theorem count_inflight_insert (f : Nat → Nat) (n p : Nat) :
    ∀ l : List Nat, (inflight_insert f n p l).count n = l.count n + 1 := by
  intro l
  induction l with
  | nil => simp [inflight_insert]
  | cons x xs ih =>
    by_cases hc : p < f x
    · simp only [inflight_insert, if_pos hc]
      rw [List.count_cons_self, List.count_cons]
    · simp only [inflight_insert, if_neg hc]
      rw [List.count_cons, List.count_cons, ih]
      omega

theorem sorted_inflight_insert (f : Nat → Nat) (n p : Nat) (hn : f n = p) :
    ∀ l : List Nat, List.Sorted (· ≤ ·) (l.map f) →
      List.Sorted (· ≤ ·) ((inflight_insert f n p l).map f) := by
  intro l
  induction l with
  | nil => intro _; simp [inflight_insert]
  | cons x xs ih =>
    intro hs
    rw [List.map_cons, List.sorted_cons] at hs
    obtain ⟨hx, hxs⟩ := hs
    by_cases hc : p < f x
    · simp only [inflight_insert, if_pos hc, List.map_cons]
      rw [List.sorted_cons]
      refine ⟨?_, ?_⟩
      · intro b hb
        rw [List.mem_cons] at hb
        rcases hb with hb | hb
        · exact hn ▸ hb ▸ le_of_lt hc
        · exact hn ▸ le_of_lt (lt_of_lt_of_le hc (hx b hb))
      · rw [List.sorted_cons]; exact ⟨hx, hxs⟩
    · simp only [inflight_insert, if_neg hc, List.map_cons]
      rw [List.sorted_cons]
      refine ⟨?_, ih hxs⟩
      intro b hb
      rw [List.mem_map] at hb
      obtain ⟨y, hy, rfl⟩ := hb
      rcases mem_inflight_insert hy with rfl | hy'
      · rw [hn]; exact Nat.le_of_not_lt hc
      · exact hx (f y) (List.mem_map_of_mem f hy')

theorem inflight_insert_eq_parts (f : Nat → Nat) (n p : Nat) :
    ∀ l : List Nat,
      inflight_insert f n p l
        = l.takeWhile (fun x => decide (f x ≤ p)) ++ n :: l.dropWhile (fun x => decide (f x ≤ p)) := by
  intro l
  induction l with
  | nil => simp [inflight_insert]
  | cons x xs ih =>
    by_cases hc : p < f x
    · have hb : (fun x => decide (f x ≤ p)) x = false := by
        simp [Nat.not_le_of_lt hc]
      simp only [inflight_insert, if_pos hc, List.takeWhile_cons, List.dropWhile_cons, hb]
      simp
    · have hb : (fun x => decide (f x ≤ p)) x = true := by
        simp [Nat.le_of_not_lt hc]
      simp only [inflight_insert, if_neg hc, List.takeWhile_cons, List.dropWhile_cons, hb]
      simp [ih]

theorem takeWhile_congr_mem {p q : Nat → Bool} :
    ∀ {l : List Nat}, (∀ x ∈ l, p x = q x) →
      l.takeWhile p = l.takeWhile q ∧ l.dropWhile p = l.dropWhile q := by
  intro l
  induction l with
  | nil => intro _; exact ⟨rfl, rfl⟩
  | cons x xs ih =>
    intro h
    have hx := h x (by simp)
    have ih' := ih (fun y hy => h y (List.mem_cons_of_mem x hy))
    rw [List.takeWhile_cons, List.takeWhile_cons, List.dropWhile_cons, List.dropWhile_cons, hx]
    cases hq : q x <;> simp [ih'.1, ih'.2]

/-! ## Helper lemmas: single-bit masks -/

theorem filter_range_single (pb : Nat → Bool) (i n : Nat) (hi : i < n)
    (hp : ∀ j, pb j = true ↔ j = i) :
    (List.range n).filter pb = [i] := by
  induction n with
  | zero => omega
  | succ m ih =>
    rw [List.range_succ, List.filter_append]
    by_cases hm : i < m
    · rw [ih hm]
      have hpm : pb m = false := by
        cases e : pb m
        · rfl
        · exact absurd ((hp m).mp e) (by omega)
      simp [hpm]
    · have him : i = m := by omega
      subst him
      have h1 : (List.range i).filter pb = [] := by
        rw [List.filter_eq_nil_iff]
        intro a ha
        rw [List.mem_range] at ha
        intro hcon
        exact absurd ((hp a).mp hcon) (by omega)
      have h2 : pb i = true := (hp i).mpr rfl
      simp [h1, h2]

theorem filter_range_shift_bit (i : Nat) (hi : i < 32) :
    (List.range 32).filter (fun j => (1 <<< i).testBit j) = [i] := by
  apply filter_range_single _ i 32 hi
  intro j
  rw [Nat.one_shiftLeft]
  constructor
  · intro h
    by_contra hne
    rw [Nat.testBit_two_pow_of_ne (fun he => hne he.symm)] at h
    exact Bool.false_ne_true h
  · intro h; subst h; exact Nat.testBit_two_pow_self

/-! ## Helper lemmas: the injection engine -/

theorem statusPrio_set_inflight (t : VgicState) (l : List Nat) (x : Nat) :
    statusPrio { t with inflight := l } x = statusPrio t x := rfl

theorem statusPrio_set_same (s : VgicState) (irq : Nat) (p : PendingIrq) :
    statusPrio (set_pending s irq p) irq = p.priority := by
  unfold statusPrio; rw [irq_to_pending_set_same]

theorem statusPrio_set_ne (s : VgicState) (irq x : Nat) (p : PendingIrq) (h : x ≠ irq) :
    statusPrio (set_pending s irq p) x = statusPrio s x := by
  unfold statusPrio; rw [irq_to_pending_set_ne _ _ _ _ h]

theorem inject_already_inflight (s : VgicState) (irq : Nat) (h : irq ∈ s.inflight) :
    vgic_vcpu_inject_irq s irq
      = (set_pending s irq { irq_to_pending s irq with queued := true },
         GicEvent.raiseInflight irq ::
           inject_tail_events (set_pending s irq { irq_to_pending s irq with queued := true })) := by
  unfold vgic_vcpu_inject_irq
  simp [h]

theorem inject_offline (s : VgicState) (irq : Nat) (h1 : irq ∉ s.inflight)
    (h2 : s.paused = true) : vgic_vcpu_inject_irq s irq = (s, []) := by
  unfold vgic_vcpu_inject_irq
  simp [h1, h2]

theorem inject_fresh_eq (s : VgicState) (irq : Nat) (h1 : irq ∉ s.inflight)
    (h2 : s.paused = false) :
    vgic_vcpu_inject_irq s irq
      = (let p1 : PendingIrq :=
           { irq_to_pending s irq with
             irq := irq, queued := true, priority := prioSnapshot s irq }
         let s1 := set_pending s irq p1
         let s2 := { s1 with
                     inflight := inflight_insert (statusPrio s1) irq (prioSnapshot s irq) s.inflight }
         (s2, (if (irq_to_pending s irq).enabled = true
               then [GicEvent.raiseGuest irq (prioSnapshot s irq)] else [])
              ++ inject_tail_events s2)) := by
  unfold vgic_vcpu_inject_irq
  simp [h1, h2, set_pending_inflight]

theorem bool_ne_true_eq_false {b : Bool} (h : ¬ b = true) : b = false := by
  cases b
  · rfl
  · exact absurd rfl h

theorem inject_preserves_sorted (s : VgicState) (irq : Nat)
    (hs : List.Sorted (· ≤ ·) (s.inflight.map (statusPrio s))) :
    List.Sorted (· ≤ ·)
      ((vgic_vcpu_inject_irq s irq).1.inflight.map
        (statusPrio (vgic_vcpu_inject_irq s irq).1)) := by
  by_cases h1 : irq ∈ s.inflight
  · rw [inject_already_inflight s irq h1]
    rw [set_pending_inflight]
    have hmap :
        s.inflight.map
            (statusPrio (set_pending s irq { irq_to_pending s irq with queued := true }))
          = s.inflight.map (statusPrio s) := by
      apply List.map_congr_left
      intro a _
      by_cases hax : a = irq
      · subst hax
        rw [statusPrio_set_same]
        rfl
      · rw [statusPrio_set_ne _ _ _ _ hax]
    rw [hmap]
    exact hs
  · by_cases h2 : s.paused = true
    · rw [inject_offline s irq h1 h2]
      exact hs
    · have h2' : s.paused = false := bool_ne_true_eq_false h2
      rw [inject_fresh_eq s irq h1 h2']
      simp only
      rw [List.map_congr_left (fun a _ => statusPrio_set_inflight _ _ a)]
      apply sorted_inflight_insert
      · exact statusPrio_set_same s irq _
      · apply List.map_congr_left (l := s.inflight) (f := statusPrio s)
          (g := statusPrio (set_pending s irq
            { irq_to_pending s irq with
              irq := irq, queued := true, priority := prioSnapshot s irq })) ?_ ▸ hs
        intro a ha
        have hax : a ≠ irq := fun he => h1 (he ▸ ha)
        rw [statusPrio_set_ne _ _ _ _ hax]

theorem reach_sorted (s : VgicState) (h : InjectReach s) :
    List.Sorted (· ≤ ·) (s.inflight.map (statusPrio s)) := by
  induction h with
  | start s hs => rw [hs]; simp
  | step s irq _ ih => exact inject_preserves_sorted s irq ih

/-! ## Claim theorems -/

/-- C10: every word-width read of the SGI generate register `GICD_SGIR` is
reported handled and returns the fixed constant 0xdeadbeef, independent of
the distributor state, which it leaves untouched. -/
theorem c10_sgir_read_constant (s : VgicState) (sign : Bool) :
    vgic_distr_mmio_read s GICD_SGIR DABT_WORD sign = ⟨HStatus.handled, 0xDEADBEEF, s⟩ := by
  rfl

/-- C7: a word write of `w` to the distributor control register keeps only
the enable bit, so a subsequent control-register read returns exactly
`w &&& 1`; in particular writing 0x00000001 then reading gives 1, and
writing 0xFFFFFFFF then reading also gives 1. -/
theorem c7_ctlr_retains_enable_bit :
    (∀ (s : VgicState) (w : Nat) (sign : Bool),
       (vgic_distr_mmio_write s GICD_CTLR DABT_WORD w).status = HStatus.handled ∧
       vgic_distr_mmio_read (vgic_distr_mmio_write s GICD_CTLR DABT_WORD w).st
           GICD_CTLR DABT_WORD sign
         = ⟨HStatus.handled, w &&& 1, (vgic_distr_mmio_write s GICD_CTLR DABT_WORD w).st⟩)
    ∧ (vgic_distr_mmio_read (vgic_distr_mmio_write st0 GICD_CTLR DABT_WORD 0x00000001).st
         GICD_CTLR DABT_WORD false).value = 1
    ∧ (vgic_distr_mmio_read (vgic_distr_mmio_write st0 GICD_CTLR DABT_WORD 0xFFFFFFFF).st
         GICD_CTLR DABT_WORD false).value = 1 := by
  exact ⟨fun s w sign => ⟨rfl, rfl⟩, by decide, by decide⟩

/-- C2 (code bug): in `vgic_to_sgi`'s target-list delivery loop, the skip
test `d->vcpu[vcpuid] != NULL && !is_vcpu_online(...)` only skips an
ALLOCATED offline vCPU; a NULL slot falls through to
`vgic_vcpu_inject_irq(NULL, virtual_irq)`, a NULL dereference (`none` in the
model).  The SGIR value 0x00020003 (explicit target list, mask 0x02, line 3)
on a two-vCPU domain whose slot 1 was never allocated reaches the
dereference; with slot 1 allocated the loop behaves as the claim says:
online targets are injected, offline ones are skipped with a diagnostic. -/
theorem c2_sgi_null_slot_dereference :
    vgic_to_sgi stSlotNull 0x00020003 = none ∧
    vgic_to_sgi stSlotOk 0x00020003 = some (1, [GicEvent.sgiInject 1 3]) ∧
    vgic_to_sgi stSlotOff 0x00020003 = some (1, [GicEvent.sgiSkip 1]) := by
  exact ⟨by decide, by decide, by decide⟩

/-- C5 (counterexample): a word write of 0x03000000 to `GICD_SGIR` carries
the unrecognized target-filter value 3; `vgic_to_sgi` returns 0 and the
write handler propagates that as NOT handled, contrary to the claim that
the access is still reported handled. -/
theorem c5_bad_filter_counterexample :
    (vgic_distr_mmio_write st0 GICD_SGIR DABT_WORD 0x03000000).status ≠ HStatus.handled := by
  decide

/-- C5 (amended): a word-width SGI generate-register write whose
target-filter field is not one of the three recognized values emits exactly
one diagnostic, performs no injection and changes no state, and the write is
reported UNHANDLED (surfaced to the trap layer) — not a width failure and
not a domain termination. -/
theorem c5_bad_filter_unhandled (s : VgicState) (sgir : Nat)
    (h0 : sgir &&& GICD_SGI_TARGET_LIST_MASK ≠ GICD_SGI_TARGET_LIST)
    (h1 : sgir &&& GICD_SGI_TARGET_LIST_MASK ≠ GICD_SGI_TARGET_OTHERS)
    (h2 : sgir &&& GICD_SGI_TARGET_LIST_MASK ≠ GICD_SGI_TARGET_SELF) :
    vgic_to_sgi s sgir = some (0, [GicEvent.diag]) ∧
    vgic_distr_mmio_write s GICD_SGIR DABT_WORD sgir
      = ⟨HStatus.unhandled, s, [GicEvent.diag]⟩ := by
  have hsgi : vgic_to_sgi s sgir = some (0, [GicEvent.diag]) := by
    unfold vgic_to_sgi
    simp [h0, h1, h2]
  refine ⟨hsgi, ?_⟩
  have hdec : gicd_decode GICD_SGIR = GicdReg.SGIR := by decide
  unfold vgic_distr_mmio_write
  rw [hdec]
  simp [vgic_distr_write_reg, hsgi, DABT_WORD]

/-- C5 (witness for the amended claim). -/
theorem c5_bad_filter_unhandled_witness :
    vgic_to_sgi st0 0x03000000 = some (0, [GicEvent.diag]) ∧
    vgic_distr_mmio_write st0 GICD_SGIR DABT_WORD 0x03000000
      = ⟨HStatus.unhandled, st0, [GicEvent.diag]⟩ :=
  c5_bad_filter_unhandled st0 0x03000000 (by decide) (by decide) (by decide)

/-- C6 (counterexample): with active bits 0-3 set, a word write of 0x3 to
the set-active register `GICD_ISACTIVER` CHANGES the active bitmap from 0xF
to 0xC — the code does `iactive &= ~*r` on this path, so the write is not
the no-op the claim states. -/
theorem c6_set_active_counterexample :
    (vgic_distr_mmio_write stActive GICD_ISACTIVER DABT_WORD 0x3).st.private_irqs.iactive = 0xC
    ∧ stActive.private_irqs.iactive = 0xF := by
  exact ⟨by decide, by decide⟩

/-- C6 (amended): a word write to the set-active register with a present
rank is handled and CLEARS the written bits of that rank's active bitmap —
exactly the behaviour of the clear-active register — leaving all other
state unchanged and emitting no collaborator call; the clear-active
register clears the written bits likewise. -/
theorem c6_active_writes :
    (∀ (s : VgicState) (off val : Nat) (rs : RankSel),
       gicd_decode off = GicdReg.ISACTIVER →
       vgic_rank_sel s 1 (off - GICD_ISACTIVER) DABT_WORD = some rs →
       vgic_distr_mmio_write s off DABT_WORD val
         = ⟨HStatus.handled,
            setRank s rs
              { getRank s rs with iactive := (getRank s rs).iactive &&& not32 val }, []⟩)
    ∧ (∀ (s : VgicState) (off val : Nat) (rs : RankSel),
       gicd_decode off = GicdReg.ICACTIVER →
       vgic_rank_sel s 1 (off - GICD_ICACTIVER) DABT_WORD = some rs →
       vgic_distr_mmio_write s off DABT_WORD val
         = ⟨HStatus.handled,
            setRank s rs
              { getRank s rs with iactive := (getRank s rs).iactive &&& not32 val }, []⟩) := by
  constructor <;>
    · intro s off val rs hd hr
      unfold vgic_distr_mmio_write
      rw [hd]
      simp only [DABT_WORD] at hr
      simp [vgic_distr_write_reg, DABT_WORD, hr]

/-- C6 (witness for the amended claim): the set-active write at offset
0x300 resolves the private rank and clears the written bits. -/
theorem c6_active_writes_witness :
    vgic_distr_mmio_write stActive GICD_ISACTIVER DABT_WORD 0x3
      = ⟨HStatus.handled,
         setRank stActive RankSel.priv
           { getRank stActive RankSel.priv with
             iactive := (getRank stActive RankSel.priv).iactive &&& not32 0x3 }, []⟩ :=
  c6_active_writes.1 stActive GICD_ISACTIVER 0x3 RankSel.priv (by decide) (by decide)

/-- C1 (counterexample): a BYTE read of the priority register at offset
0x420 — a width the priority group permits — on a domain with zero
configured lines decodes rank 1, which is absent; the claim says it reads
zero and is handled, but `read_as_zero` insists on word width and falls
into `bad_width`, terminating the domain. -/
theorem c1_byte_absent_rank_counterexample :
    (vgic_distr_mmio_read stAbsent 0x420 DABT_BYTE false).status = HStatus.crash := by
  decide

/-- C1 (amended): for every WORD-width register access whose decoded rank is
absent (`vgic_rank_offset` returns NULL), the read returns zero and is
reported handled with no state change, and the write changes no state, emits
no collaborator call and is reported handled; neither terminates the domain.
For byte-width accesses the absent-rank fallthrough lands in
`read_as_zero`/`write_ignore`, whose word-width check terminates the
domain (see the counterexample). -/
theorem c1_absent_rank_word_soft_fail :
    (∀ (s : VgicState) (off : Nat) (sign : Bool) (b base : Nat),
       readRankSpec (gicd_decode off) = some (b, base) →
       vgic_rank_sel s b (off - base) DABT_WORD = none →
       vgic_distr_mmio_read s off DABT_WORD sign = ⟨HStatus.handled, 0, s⟩)
    ∧ (∀ (s : VgicState) (off val : Nat) (b base : Nat),
       writeRankSpec (gicd_decode off) = some (b, base) →
       vgic_rank_sel s b (off - base) DABT_WORD = none →
       vgic_distr_mmio_write s off DABT_WORD val = ⟨HStatus.handled, s, []⟩) := by
  constructor
  · intro s off sign b base hspec hsel
    unfold vgic_distr_mmio_read
    cases hg : gicd_decode off <;> rw [hg] at hspec <;>
      simp [readRankSpec] at hspec <;>
      obtain ⟨rfl, rfl⟩ := hspec <;>
      simp only [DABT_WORD] at hsel <;>
      simp [vgic_distr_read_reg, read_as_zero, DABT_WORD, DABT_BYTE, hsel]
  · intro s off val b base hspec hsel
    unfold vgic_distr_mmio_write
    cases hg : gicd_decode off <;> rw [hg] at hspec <;>
      simp [writeRankSpec] at hspec <;>
      obtain ⟨rfl, rfl⟩ := hspec <;>
      simp only [DABT_WORD] at hsel <;>
      simp [vgic_distr_write_reg, write_ignore, DABT_WORD, DABT_BYTE, hsel]

/-- C1 (witness for the amended claim): on a domain with zero configured
lines, offset 0x120 decodes enable-set rank 1, which is absent; the word
read returns zero handled and the word write is ignored handled. -/
theorem c1_absent_rank_word_soft_fail_witness :
    vgic_distr_mmio_read stAbsent 0x120 DABT_WORD false = ⟨HStatus.handled, 0, stAbsent⟩ ∧
    vgic_distr_mmio_write stAbsent 0x120 DABT_WORD 0xFF = ⟨HStatus.handled, stAbsent, []⟩ :=
  ⟨c1_absent_rank_word_soft_fail.1 stAbsent 0x120 false 1 GICD_ISENABLER
     (by decide) (by decide),
   c1_absent_rank_word_soft_fail.2 stAbsent 0x120 0xFF 1 GICD_ISENABLER
     (by decide) (by decide)⟩

/-- C9: any access to a defined register (every decoded group except the
`default:` case) with a width that group does not accept jumps to
`bad_width` before touching anything: it terminates the domain, leaves the
state exactly as it was, and has emitted nothing but the diagnostic. -/
theorem c9_bad_width_crashes_without_state_change :
    (∀ (s : VgicState) (off size : Nat) (sign : Bool),
       gicd_decode off ≠ GicdReg.unknown →
       readWidths (gicd_decode off) size = false →
       vgic_distr_mmio_read s off size sign = ⟨HStatus.crash, 0, s⟩)
    ∧ (∀ (s : VgicState) (off size val : Nat),
       gicd_decode off ≠ GicdReg.unknown →
       writeWidths (gicd_decode off) size = false →
       vgic_distr_mmio_write s off size val = ⟨HStatus.crash, s, [GicEvent.diag]⟩) := by
  constructor
  · intro s off size sign hne hw
    unfold vgic_distr_mmio_read
    cases hg : gicd_decode off <;> rw [hg] at hw <;>
      first
      | exact absurd hg hne
      | (simp [readWidths, DABT_WORD, DABT_BYTE] at hw;
         simp [vgic_distr_read_reg, read_as_zero, bad_width_read, DABT_WORD, DABT_BYTE, hw])
  · intro s off size val hne hw
    unfold vgic_distr_mmio_write
    cases hg : gicd_decode off <;> rw [hg] at hw <;>
      first
      | exact absurd hg hne
      | (simp [writeWidths, DABT_WORD, DABT_BYTE] at hw;
         simp [vgic_distr_write_reg, write_ignore, bad_width_write, DABT_WORD, DABT_BYTE, hw])

/-- C9 (witness): a byte write to the word-only control register and a byte
read of the word-only SGI generate register both crash with the state
untouched. -/
theorem c9_bad_width_witness :
    vgic_distr_mmio_read st0 GICD_SGIR DABT_BYTE false = ⟨HStatus.crash, 0, st0⟩ ∧
    vgic_distr_mmio_write st0 GICD_CTLR DABT_BYTE 0x1
      = ⟨HStatus.crash, st0, [GicEvent.diag]⟩ :=
  ⟨c9_bad_width_crashes_without_state_change.1 st0 GICD_SGIR DABT_BYTE false
     (by decide) (by decide),
   c9_bad_width_crashes_without_state_change.2 st0 GICD_CTLR DABT_BYTE 0x1
     (by decide) (by decide)⟩

theorem inject_fresh_inflight (s : VgicState) (irq : Nat) (h1 : irq ∉ s.inflight)
    (h2 : s.paused = false) :
    (vgic_vcpu_inject_irq s irq).1.inflight
      = inflight_insert
          (statusPrio (set_pending s irq
            { irq_to_pending s irq with
              irq := irq, queued := true, priority := prioSnapshot s irq }))
          irq (prioSnapshot s irq) s.inflight := by
  rw [inject_fresh_eq s irq h1 h2]

/-- C3: (i) along any sequence of `vgic_vcpu_inject_irq` calls the inflight
list stays sorted by ascending snapshotted priority; (ii) a fresh injection
is linked immediately before the first entry of strictly greater priority,
i.e. after every equal-or-lower entry already present (the
takeWhile/dropWhile split of the list at that point); (iii) injecting
private lines 16,17,18,19 configured with priorities 0x80,0x10,0x80,0x40
into an empty list yields the order [0x10, 0x40, 0x80(first), 0x80(second)],
that is [17, 19, 16, 18]. -/
theorem c3_inflight_priority_order :
    (∀ s : VgicState, InjectReach s →
       List.Sorted (· ≤ ·) (s.inflight.map (statusPrio s)))
    ∧ (∀ (s : VgicState) (irq : Nat), irq ∉ s.inflight → s.paused = false →
        (vgic_vcpu_inject_irq s irq).1.inflight
          = s.inflight.takeWhile (fun x => decide (statusPrio s x ≤ prioSnapshot s irq))
            ++ irq :: s.inflight.dropWhile
                 (fun x => decide (statusPrio s x ≤ prioSnapshot s irq)))
    ∧ (injectSeq stPrio [16, 17, 18, 19]).inflight = [17, 19, 16, 18]
    ∧ (injectSeq stPrio [16, 17, 18, 19]).inflight.map
        (statusPrio (injectSeq stPrio [16, 17, 18, 19])) = [0x10, 0x40, 0x80, 0x80] := by
  refine ⟨reach_sorted, ?_, by decide, by decide⟩
  intro s irq h1 h2
  rw [inject_fresh_inflight s irq h1 h2, inflight_insert_eq_parts]
  have hcong := takeWhile_congr_mem (l := s.inflight)
      (p := fun x => decide (statusPrio (set_pending s irq
              { irq_to_pending s irq with
                irq := irq, queued := true, priority := prioSnapshot s irq }) x
              ≤ prioSnapshot s irq))
      (q := fun x => decide (statusPrio s x ≤ prioSnapshot s irq))
      (fun x hx => by
        have hxne : x ≠ irq := fun he => h1 (he ▸ hx)
        simp only [statusPrio_set_ne _ _ _ _ hxne])
  rw [hcong.1, hcong.2]

/-- C3 (witness): part (i) applied to the concrete reachable state built by
injecting 16 then 17 into `stPrio`, and part (ii) applied to the first
injection into the empty list. -/
theorem c3_inflight_priority_order_witness :
    List.Sorted (· ≤ ·)
      ((injectSeq stPrio [16, 17]).inflight.map (statusPrio (injectSeq stPrio [16, 17]))) ∧
    (vgic_vcpu_inject_irq stPrio 16).1.inflight
      = stPrio.inflight.takeWhile
          (fun x => decide (statusPrio stPrio x ≤ prioSnapshot stPrio 16))
        ++ 16 :: stPrio.inflight.dropWhile
             (fun x => decide (statusPrio stPrio x ≤ prioSnapshot stPrio 16)) :=
  ⟨c3_inflight_priority_order.1 _
     (InjectReach.step _ 17 (InjectReach.step _ 16 (InjectReach.start stPrio rfl))),
   c3_inflight_priority_order.2.1 stPrio 16 (by decide) (by decide)⟩

/-- C4: (i) injecting a line that is already linked in the inflight list
mutates no list linkage, marks the line queued (re-triggered) and asks the
physical interface to re-latch it (`gic_raise_inflight_irq`); (ii) starting
from a line not inflight on an online vCPU, injecting it twice leaves the
list exactly as after the first injection, with exactly one entry for the
line; (iii) injecting a line not inflight while the vCPU is administratively
offline is a pure no-op: same state, no collaborator call, no unblock and no
cross-processor notification. -/
theorem c4_inject_coalesce_and_offline :
    (∀ (s : VgicState) (irq : Nat), irq ∈ s.inflight →
       (vgic_vcpu_inject_irq s irq).1.inflight = s.inflight ∧
       (irq_to_pending (vgic_vcpu_inject_irq s irq).1 irq).queued = true ∧
       GicEvent.raiseInflight irq ∈ (vgic_vcpu_inject_irq s irq).2)
    ∧ (∀ (s : VgicState) (irq : Nat), irq ∉ s.inflight → s.paused = false →
        (vgic_vcpu_inject_irq (vgic_vcpu_inject_irq s irq).1 irq).1.inflight
          = (vgic_vcpu_inject_irq s irq).1.inflight ∧
        (vgic_vcpu_inject_irq (vgic_vcpu_inject_irq s irq).1 irq).1.inflight.count irq = 1)
    ∧ (∀ (s : VgicState) (irq : Nat), irq ∉ s.inflight → s.paused = true →
        vgic_vcpu_inject_irq s irq = (s, [])) := by
  refine ⟨?_, ?_, fun s irq h1 h2 => inject_offline s irq h1 h2⟩
  · intro s irq h
    rw [inject_already_inflight s irq h]
    refine ⟨set_pending_inflight _ _ _, ?_, List.mem_cons_self _ _⟩
    rw [irq_to_pending_set_same]
  · intro s irq h1 h2
    have hmem : irq ∈ (vgic_vcpu_inject_irq s irq).1.inflight := by
      rw [inject_fresh_inflight s irq h1 h2]
      exact self_mem_inflight_insert _ _ _ _
    have hcount : (vgic_vcpu_inject_irq s irq).1.inflight.count irq = 1 := by
      rw [inject_fresh_inflight s irq h1 h2, count_inflight_insert,
          List.count_eq_zero.mpr h1]
    refine ⟨?_, ?_⟩
    · rw [inject_already_inflight _ irq hmem, set_pending_inflight]
    · rw [inject_already_inflight _ irq hmem, set_pending_inflight]
      exact hcount

/-- C4 (witness): part (i) at a state with line 17 inflight; part (ii)
injecting line 16 twice into the empty baseline state; part (iii) at the
paused baseline state. -/
theorem c4_inject_coalesce_and_offline_witness :
    ((vgic_vcpu_inject_irq stC8 17).1.inflight = stC8.inflight ∧
     (irq_to_pending (vgic_vcpu_inject_irq stC8 17).1 17).queued = true ∧
     GicEvent.raiseInflight 17 ∈ (vgic_vcpu_inject_irq stC8 17).2) ∧
    ((vgic_vcpu_inject_irq (vgic_vcpu_inject_irq st0 16).1 16).1.inflight
       = (vgic_vcpu_inject_irq st0 16).1.inflight ∧
     (vgic_vcpu_inject_irq (vgic_vcpu_inject_irq st0 16).1 16).1.inflight.count 16 = 1) ∧
    vgic_vcpu_inject_irq stPaused 16 = (stPaused, []) :=
  ⟨c4_inject_coalesce_and_offline.1 stC8 17 (by decide),
   c4_inject_coalesce_and_offline.2.1 st0 16 (by decide) (by decide),
   c4_inject_coalesce_and_offline.2.2 stPaused 16 (by decide) (by decide)⟩

theorem remove_queues_inflight (s : VgicState) (irq : Nat) :
    (gic_remove_from_queues s irq).inflight = s.inflight.filter (fun x => x != irq) := rfl

theorem remove_queues_lr (s : VgicState) (irq : Nat) :
    (gic_remove_from_queues s irq).lr_pending = s.lr_pending.filter (fun x => x != irq) := rfl

theorem irq_to_pending_remove (s : VgicState) (irq x : Nat) :
    irq_to_pending (gic_remove_from_queues s irq) x = irq_to_pending s x := rfl

/-- C8: (i) enabling a line that is already inflight but not yet visible to
the guest re-raises it at the physical interface (`gic_raise_guest_irq` with
its snapshotted priority) without touching the inflight list, and marks it
enabled; (ii) disabling a line clears its enabled status, unconditionally
removes it from both the inflight list and the list-register queue
(`gic_remove_from_queues`), and disables the backing physical interrupt when
one is present.  Stated for the single newly-changed bit `i` of rank word
`n`, i.e. line `i + 32*n`. -/
theorem c8_enable_disable_transitions :
    (∀ (s : VgicState) (i n : Nat), i < 32 →
       (i + 32 * n) ∈ s.inflight →
       (irq_to_pending s (i + 32 * n)).visible = false →
       ((vgic_enable_irqs s (1 <<< i) n).1.inflight = s.inflight ∧
        GicEvent.raiseGuest (i + 32 * n) ((irq_to_pending s (i + 32 * n)).priority)
          ∈ (vgic_enable_irqs s (1 <<< i) n).2 ∧
        (irq_to_pending (vgic_enable_irqs s (1 <<< i) n).1 (i + 32 * n)).enabled = true))
    ∧ (∀ (s : VgicState) (i n : Nat), i < 32 →
        ((irq_to_pending (vgic_disable_irqs s (1 <<< i) n).1 (i + 32 * n)).enabled = false ∧
         (i + 32 * n) ∉ (vgic_disable_irqs s (1 <<< i) n).1.inflight ∧
         (i + 32 * n) ∉ (vgic_disable_irqs s (1 <<< i) n).1.lr_pending ∧
         GicEvent.removeQueues (i + 32 * n) ∈ (vgic_disable_irqs s (1 <<< i) n).2 ∧
         ((irq_to_pending s (i + 32 * n)).hasDesc = true →
           GicEvent.descDisable (i + 32 * n) ∈ (vgic_disable_irqs s (1 <<< i) n).2))) := by
  constructor
  · intro s i n hi hmem hvis
    unfold vgic_enable_irqs
    rw [filter_range_shift_bit i hi]
    simp only [List.foldl_cons, List.foldl_nil]
    simp [vgic_enable_one, set_pending_inflight, hmem, hvis, irq_to_pending_set_same]
  · intro s i n hi
    unfold vgic_disable_irqs
    rw [filter_range_shift_bit i hi]
    simp only [List.foldl_cons, List.foldl_nil]
    refine ⟨?_, ?_, ?_, ?_, fun hdesc => ?_⟩ <;>
      simp [vgic_disable_one, remove_queues_inflight, remove_queues_lr,
            irq_to_pending_remove, irq_to_pending_set_same, set_pending_inflight,
            set_pending_lr, List.mem_filter]
    exact hdesc

/-- C8 (witness): enabling line 17 (inflight, not visible) re-raises it
without a second entry; disabling line 5 (with a backing physical
interrupt, sitting in the list-register queue) clears enabled, empties its
queues and disables the physical interrupt. -/
theorem c8_enable_disable_transitions_witness :
    ((vgic_enable_irqs stC8 (1 <<< 17) 0).1.inflight = stC8.inflight ∧
     GicEvent.raiseGuest (17 + 32 * 0) ((irq_to_pending stC8 (17 + 32 * 0)).priority)
       ∈ (vgic_enable_irqs stC8 (1 <<< 17) 0).2 ∧
     (irq_to_pending (vgic_enable_irqs stC8 (1 <<< 17) 0).1 (17 + 32 * 0)).enabled = true) ∧
    ((irq_to_pending (vgic_disable_irqs stC8 (1 <<< 5) 0).1 (5 + 32 * 0)).enabled = false ∧
     (5 + 32 * 0) ∉ (vgic_disable_irqs stC8 (1 <<< 5) 0).1.inflight ∧
     (5 + 32 * 0) ∉ (vgic_disable_irqs stC8 (1 <<< 5) 0).1.lr_pending ∧
     GicEvent.removeQueues (5 + 32 * 0) ∈ (vgic_disable_irqs stC8 (1 <<< 5) 0).2 ∧
     ((irq_to_pending stC8 (5 + 32 * 0)).hasDesc = true →
       GicEvent.descDisable (5 + 32 * 0) ∈ (vgic_disable_irqs stC8 (1 <<< 5) 0).2)) :=
  ⟨c8_enable_disable_transitions.1 stC8 17 0 (by decide) (by decide) (by decide),
   c8_enable_disable_transitions.2 stC8 5 0 (by decide)⟩
